import Mathlib

/-!
Verification development for the knowledge-graph-of-thoughts controller.

The Python sources are shallowly embedded: external effects (the LLM oracle,
the graph backends, the HTTP tools) are modelled as streams of outcomes
indexed by call order, and each mutable object is threaded as explicit state.
-/

set_option maxRecDepth 4000

/-- A Python value, as far as the controller inspects values: `None`,
booleans, integers, strings, lists and string-keyed dictionaries. -/
inductive PyVal where
  | none : PyVal
  | bool (b : Bool) : PyVal
  | int (n : Int) : PyVal
  | str (s : String) : PyVal
  | list (xs : List PyVal) : PyVal
  | dict (kvs : List (String × PyVal)) : PyVal

mutual
/-- Embeds `kgot.utils.utils.is_empty_solution`: `None` is empty, a dict or a
list is empty when it has no entries or when every entry is recursively empty
(the Python `not solution or all(...)` collapses to the all-fold, which is
`true` on the empty collection), everything else is non-empty. -/
def is_empty_solution : PyVal → Bool
  | PyVal.none => true
  | PyVal.dict kvs => is_empty_pairs kvs
  | PyVal.list xs => is_empty_elems xs
  | PyVal.bool _ => false
  | PyVal.int _ => false
  | PyVal.str _ => false

/-- All elements of the list are empty solutions (`all` of the Python code). -/
def is_empty_elems : List PyVal → Bool
  | [] => true
  | x :: xs => is_empty_solution x && is_empty_elems xs

/-- All values of the dictionary are empty solutions. -/
def is_empty_pairs : List (String × PyVal) → Bool
  | [] => true
  | (_, v) :: kvs => is_empty_solution v && is_empty_pairs kvs
end

/-- Lower-case hexadecimal digit, as Python emits in `\uXXXX` escapes. -/
def hexDigit (n : Nat) : Char :=
  if n < 10 then Char.ofNat (48 + n) else Char.ofNat (87 + n)

/-- Four-digit hexadecimal rendering for `\uXXXX` escapes. -/
def hex4 (n : Nat) : String :=
  String.mk [hexDigit (n / 4096 % 16), hexDigit (n / 256 % 16),
             hexDigit (n / 16 % 16), hexDigit (n % 16)]

/-- Escape one character the way `json.dumps` does with `ensure_ascii=True`. -/
def jsonEscapeChar (c : Char) : String :=
  if c = '"' then "\\\""
  else if c = '\\' then "\\\\"
  else if c = '\n' then "\\n"
  else if c = '\t' then "\\t"
  else if c = '\r' then "\\r"
  else if c.toNat = 8 then "\\b"
  else if c.toNat = 12 then "\\f"
  else if c.toNat < 32 || c.toNat > 126 then
    if c.toNat ≤ 65535 then "\\u" ++ hex4 c.toNat
    else
      let v := c.toNat - 65536
      "\\u" ++ hex4 (55296 + v / 1024) ++ "\\u" ++ hex4 (56320 + v % 1024)
  else String.singleton c

/-- JSON string literal for `s`. -/
def jsonString (s : String) : String :=
  "\"" ++ String.join (s.data.map jsonEscapeChar) ++ "\""

/-- Code-point comparison of character lists, as Python compares strings. -/
def charListLe : List Char → List Char → Bool
  | [], _ => true
  | _ :: _, [] => false
  | a :: as, b :: bs =>
    if a.toNat < b.toNat then true
    else if b.toNat < a.toNat then false
    else charListLe as bs

/-- Python string `<=` (lexicographic by code point). -/
def strLe (a b : String) : Bool := charListLe a.data b.data

/-- Stable insertion of a rendered key/value pair into a key-sorted list. -/
def insertPairSorted (p : String × String) :
    List (String × String) → List (String × String)
  | [] => [p]
  | q :: rest =>
    if strLe q.1 p.1 then q :: insertPairSorted p rest else p :: q :: rest

/-- Sort rendered dictionary entries by key (`sort_keys=True`). -/
def sortPairsByKey (l : List (String × String)) : List (String × String) :=
  l.foldr insertPairSorted []

mutual
/-- Embeds `json.dumps(v, sort_keys=True)` with the default separators
`", "` and `": "`, used to build tool-call cache keys. -/
def json_dumps_sorted : PyVal → String
  | PyVal.none => "null"
  | PyVal.bool b => if b then "true" else "false"
  | PyVal.int n => toString n
  | PyVal.str s => jsonString s
  | PyVal.list xs => "[" ++ String.intercalate ", " (json_elems xs) ++ "]"
  | PyVal.dict kvs =>
    let rendered := sortPairsByKey (json_pairs kvs)
    "\x7b" ++
      String.intercalate ", "
        (rendered.map (fun kv => jsonString kv.1 ++ ": " ++ kv.2)) ++
      "\x7d"

/-- Render every list element. -/
def json_elems : List PyVal → List String
  | [] => []
  | x :: xs => json_dumps_sorted x :: json_elems xs

/-- Render every dictionary value, keeping the key. -/
def json_pairs : List (String × PyVal) → List (String × String)
  | [] => []
  | (k, v) :: kvs => (k, json_dumps_sorted v) :: json_pairs kvs
end

mutual
/-- Python `repr` of a value, only used to build prompt text. -/
def pyRepr : PyVal → String
  | PyVal.none => "None"
  | PyVal.bool b => if b then "True" else "False"
  | PyVal.int n => toString n
  | PyVal.str s => "\x27" ++ s ++ "\x27"
  | PyVal.list xs => "[" ++ String.intercalate ", " (pyReprElems xs) ++ "]"
  | PyVal.dict kvs =>
    "\x7b" ++ String.intercalate ", " (pyReprPairs kvs) ++ "\x7d"

/-- `repr` of every list element. -/
def pyReprElems : List PyVal → List String
  | [] => []
  | x :: xs => pyRepr x :: pyReprElems xs

/-- `repr` of every dictionary entry. -/
def pyReprPairs : List (String × PyVal) → List String
  | [] => []
  | (k, v) :: kvs => ("\x27" ++ k ++ "\x27: " ++ pyRepr v) :: pyReprPairs kvs
end

/-- Python `str` of a value: strings stay raw, containers use `repr`. -/
def pyStr : PyVal → String
  | PyVal.str s => s
  | v => pyRepr v

section Backends

/-- Outcome of running one statement against the external Neo4j server:
normal completion, a recoverable client-side error (`ClientError`,
`CypherSyntaxError`, `CypherTypeError`), or any other exception. -/
inductive TxOutcome where
  | ok : TxOutcome
  | clientErr (e : String) : TxOutcome
  | otherErr (e : String) : TxOutcome
deriving DecidableEq, Repr

/-- The snapshot-related state of the Neo4j backend object. -/
structure Neo4jState where
  current_snapshot_id : Nat
  files : List String
deriving DecidableEq, Repr

/-- Embeds `kgot.knowledge_graph.neo4j.main.KnowledgeGraph.write_query`:
a `None` query fails immediately; otherwise the query transaction runs, and
on completion `_export_db` exports `snapshot_<id>.json` and increments the
snapshot counter.  Client errors of either statement return `(False, e)`
leaving the state unchanged; other exceptions are re-raised (`.error`). -/
def neo4j_write_query (q : Option String) (txRes exportRes : TxOutcome)
    (st : Neo4jState) : Except String ((Bool × Option String) × Neo4jState) :=
  match q with
  | Option.none => Except.ok ((false, some "ValueError: Query to execute is None"), st)
  | some _ =>
    match txRes with
    | TxOutcome.clientErr e => Except.ok ((false, some e), st)
    | TxOutcome.otherErr e => Except.error e
    | TxOutcome.ok =>
      match exportRes with
      | TxOutcome.clientErr e => Except.ok ((false, some e), st)
      | TxOutcome.otherErr e => Except.error e
      | TxOutcome.ok =>
        Except.ok ((true, Option.none),
          { current_snapshot_id := st.current_snapshot_id + 1,
            files := st.files ++
              ["snapshot_" ++ toString st.current_snapshot_id ++ ".json"] })

/-- A NetworkX directed graph: nodes and edges with attribute maps. -/
structure NxGraph where
  nodes : List (String × List (String × PyVal))
  edges : List ((String × String) × List (String × PyVal))

/-- State of the NetworkX backend object. -/
structure NxState where
  G : NxGraph
  current_snapshot_id : Nat
  files : List String

/-- Embeds `kgot.knowledge_graph.networkX.main.KnowledgeGraph.write_query`.
The oracle-authored script is modelled as a mutation of the graph that may
also raise (`NxGraph → NxGraph × Option error`); the pre-call graph is kept
as the deep copy.  On any exception (from the script or from the snapshot
export) the copy is restored and `(False, e)` returned; on success the
mutated graph is kept, `nx_snapshot_<id>.json` is written and the counter
incremented. -/
def nx_write_query (q : Option (NxGraph → NxGraph × Option String))
    (exportErr : Option String) (st : NxState) :
    (Bool × Option String) × NxState :=
  match q with
  | Option.none => ((false, some "ValueError: Query to execute is None"), st)
  | some script =>
    let graph_copy := st.G
    let res := script st.G
    match res.2 with
    | some e => ((false, some e), { st with G := graph_copy })
    | Option.none =>
      match exportErr with
      | some e => ((false, some e), { st with G := graph_copy })
      | Option.none =>
        ((true, Option.none),
         { G := res.1,
           current_snapshot_id := st.current_snapshot_id + 1,
           files := st.files ++
             ["nx_snapshot_" ++ toString st.current_snapshot_id ++ ".json"] })

/-- Snapshot-related state of the RDF4J backend object. -/
structure RdfState where
  current_snapshot_id : Nat
  files : List String
deriving DecidableEq, Repr

/-- Embeds `kgot.knowledge_graph.rdf4j.main.KnowledgeGraph.write_query`:
a falsy query (`None` or `""`) fails immediately; otherwise the update is
posted to the write endpoint and any exception returns `(False, e)`.
The snapshot export call is commented out in the source
(`# self._export_db()    # Optional export`), so the snapshot state is
never touched by writes. -/
def rdf4j_write_query (q : Option String) (writerErr : Option String)
    (st : RdfState) : (Bool × Option String) × RdfState :=
  match q with
  | Option.none => ((false, some "ValueError: Query to execute is None"), st)
  | some qs =>
    if qs = "" then ((false, some "ValueError: Query to execute is None"), st)
    else
      match writerErr with
      | some e => ((false, some e), st)
      | Option.none => ((true, Option.none), st)

end Backends

section PythonCodeTool

/-- Outcome of one `requests.post` to the sandboxed Python executor:
a 2xx response with body, a non-2xx response with body, or a raised
exception (connection error and the like). -/
inductive PostResult where
  | respOk (body : String) : PostResult
  | respErr (text : String) : PostResult
  | raised (e : String) : PostResult

/-- Outcome of one `_fix_code` oracle call: a rewritten program or a raised
exception (structured-output failure, LLM failure). -/
inductive FixResult where
  | fixed (code : String) (mods : List String) : FixResult
  | raised (e : String) : FixResult

/-- External world of `RunPythonCodeTool`: the `k`-th HTTP post outcome and
the `k`-th `_fix_code` outcome. -/
structure PyToolEnv where
  posts : Nat → PostResult
  fixes : Nat → FixResult

/-- Mutable state of a `RunPythonCodeTool` instance plus call cursors.
`times_to_fix` is the instance field set in `__init__` and decremented by
`_run`; Python ints may be negative so it is an `Int`. -/
structure PyToolState where
  times_to_fix : Int
  cPost : Nat
  cFix : Nat

/-- Result of `_run`: the parsed JSON body on success, or the error payload
dictionary `\x7b"error": text\x7d`. -/
inductive RunOut where
  | json (body : String) : RunOut
  | errorPayload (text : String) : RunOut

/-- Exit of the fix loop (also used when the loop is never entered):
a 2xx response returns its JSON body, anything else the error payload. -/
def pyRunFinish (respOk : Bool) (txt : String) (st : PyToolState) :
    RunOut × PyToolState :=
  if respOk then (RunOut.json txt, st) else (RunOut.errorPayload txt, st)

/-- The `while not response.ok and self.try_to_fix and self.times_to_fix > 0`
loop of `RunPythonCodeTool._run`.  Each iteration decrements `times_to_fix`,
asks `_fix_code` (a raised fix breaks out of the loop), re-posts the code, and
re-checks; a raised post propagates to the outer handler which returns the
error payload.  The fuel starts at `times_to_fix.toNat`, which bounds the
iteration count because every iteration requires `times_to_fix > 0` and
decrements it. -/
def pyRunFixLoop (env : PyToolEnv) (try_to_fix : Bool) :
    Nat → Bool → String → PyToolState → RunOut × PyToolState
  | 0, respOk, txt, st => pyRunFinish respOk txt st
  | fuel + 1, respOk, txt, st =>
    if !respOk && try_to_fix && st.times_to_fix > 0 then
      let st1 : PyToolState := { st with times_to_fix := st.times_to_fix - 1 }
      match env.fixes st1.cFix with
      | FixResult.raised _ =>
        pyRunFinish respOk txt { st1 with cFix := st1.cFix + 1 }
      | FixResult.fixed _ _ =>
        let st2 : PyToolState := { st1 with cFix := st1.cFix + 1 }
        match env.posts st2.cPost with
        | PostResult.raised e =>
          (RunOut.errorPayload e, { st2 with cPost := st2.cPost + 1 })
        | PostResult.respOk body =>
          pyRunFixLoop env try_to_fix fuel true body
            { st2 with cPost := st2.cPost + 1 }
        | PostResult.respErr text =>
          pyRunFixLoop env try_to_fix fuel false text
            { st2 with cPost := st2.cPost + 1 }
    else pyRunFinish respOk txt st

/-- Embeds `RunPythonCodeTool._run`: post the code once, then run the fix
loop; a raised initial post is caught by the outer handler and becomes the
error payload. -/
def pyRun (env : PyToolEnv) (try_to_fix : Bool) (st : PyToolState) :
    RunOut × PyToolState :=
  match env.posts st.cPost with
  | PostResult.raised e => (RunOut.errorPayload e, { st with cPost := st.cPost + 1 })
  | PostResult.respOk body =>
    pyRunFixLoop env try_to_fix st.times_to_fix.toNat true body
      { st with cPost := st.cPost + 1 }
  | PostResult.respErr text =>
    pyRunFixLoop env try_to_fix st.times_to_fix.toNat false text
      { st with cPost := st.cPost + 1 }

/-- A sequence of `_run` invocations against the same tool instance, each
with its own environment, returning the final instance state. -/
def pyRunSeq (try_to_fix : Bool) (envs : List PyToolEnv) (st : PyToolState) :
    PyToolState :=
  envs.foldl (fun st env => (pyRun env try_to_fix st).2) st

end PythonCodeTool

section Controller

/-- A structured tool call produced by the execution LLM: a tool name and an
argument dictionary. -/
structure ToolCall where
  name : String
  args : List (String × PyVal)

/-- Net outcome of one physical tool-invocation attempt inside
`ControllerInterface._invoke_tool_with_retry` (the inner `try` block,
including the argument-unpacking fallback on `TypeError`): a returned value,
an exception of a retryable type (`WikipediaException`, `httpx.ReadTimeout`,
`httpx.ConnectTimeout`), or any other exception. -/
inductive AttemptResult where
  | val (v : PyVal) : AttemptResult
  | retryable : AttemptResult
  | fatal : AttemptResult

/-- A tool output as seen by `_invoke_tools_after_llm_response`: the value
returned by the tool, one of the two failure strings produced by
`_invoke_tool_with_retry`, or the `None` substituted for a tool that is not
in the registry. -/
inductive ToolOut where
  | val (v : PyVal) : ToolOut
  | failed : ToolOut
  | failedRetries : ToolOut
  | noneOut : ToolOut

/-- The failure strings of `_invoke_tool_with_retry`, and `str()` of the
other outputs, used to build prompt text. -/
def toolOutStr : ToolOut → String
  | ToolOut.val v => pyStr v
  | ToolOut.failed => "Tool invocation failed."
  | ToolOut.failedRetries => "Tool invocation failed after multiple retries"
  | ToolOut.noneOut => "None"

/-- ASCII lower-casing of one character, as `str.lower()` acts on the ASCII
tool names used by the registry. -/
def pyCharLower (c : Char) : Char :=
  if 65 ≤ c.toNat && c.toNat ≤ 90 then Char.ofNat (c.toNat + 32) else c

/-- `str.lower()` on a tool name. -/
def strLower (s : String) : String := String.mk (s.data.map pyCharLower)

/-- `tool_call_key`: the pair `(tool_name.lower(), json.dumps(args, sort_keys=True))`. -/
def toolCallKey (name : String) (args : List (String × PyVal)) : String × String :=
  (strLower name, json_dumps_sorted (PyVal.dict args))

/-- Python-dict lookup on the cache association list. -/
def cacheLookup (cache : List ((String × String) × ToolOut))
    (key : String × String) : Option ToolOut :=
  match cache.find? (fun e => e.1 = key) with
  | some e => some e.2
  | Option.none => Option.none

/-- Python-dict assignment on the cache association list: replace the value
when the key is present, append otherwise. -/
def cacheInsert (cache : List ((String × String) × ToolOut))
    (key : String × String) (out : ToolOut) :
    List ((String × String) × ToolOut) :=
  match cache with
  | [] => [(key, out)]
  | e :: rest =>
    if e.1 = key then (key, out) :: rest else e :: cacheInsert rest key out

/-- Result of one `graph.get_query` call: `(result, success, exception)`. -/
structure GetResult where
  payload : PyVal
  success : Bool
  err : String

/-- The external world of one controller run.  Each LLM handle of
`kgot.controller.neo4j.queryRetrieve.llm_invocation_handle` and each graph
backend call is a stream of outcomes indexed by how many calls of that kind
were made before. -/
structure Env where
  nextStep : Nat → String × String
  mergeReasons : Nat → String
  toolCallsGen : Nat → List ToolCall
  writeQueriesGen : Nat → List String
  fixCypher : Nat → String
  newRetrieve : Nat → String
  forcedRetrieve : Nat → String
  needMath : Nat → Bool
  mathToolCalls : Nat → List ToolCall
  parseSol : Nat → String
  forcedSol : Nat → String
  finalSol : Nat → String
  reads : Nat → GetResult
  writes : Nat → Bool × String
  renders : Nat → String
  toolAttempt : Nat → AttemptResult

/-- The controller parameters fixed at construction time
(`ControllerInterface.__init__` and the tool registry of
`Controller.__init__`). -/
structure Params where
  max_iterations : Nat
  num_next_steps_decision : Nat
  max_retrieve_query_retry : Nat
  max_cypher_fixing_retry : Nat
  max_final_solution_parsing : Nat
  max_tool_retries : Nat
  registry : List String

/-- The mutable controller state: one cursor per outcome stream plus the
tool-call result cache. -/
structure St where
  cNextStep : Nat
  cMerge : Nat
  cToolGen : Nat
  cWriteGen : Nat
  cFixCy : Nat
  cNewRet : Nat
  cForcedRet : Nat
  cNeedMath : Nat
  cMathT : Nat
  cParse : Nat
  cForcedSol : Nat
  cFinalSol : Nat
  cReads : Nat
  cWrites : Nat
  cRender : Nat
  cAttempt : Nat
  cache : List ((String × String) × ToolOut)

/-- The all-zero initial state of a run. -/
def St.init : St :=
  ⟨0, 0, 0, 0, 0, 0, 0, 0, 0, 0, 0, 0, 0, 0, 0, 0, []⟩

/-- The tenacity loop of `ControllerInterface._invoke_tool_with_retry` with
`stop_after_attempt(max_tool_retries)`: a value is returned as is, a
non-retryable exception yields `"Tool invocation failed."`, a retryable
exception retries; exhausting the attempts (with `reraise=True` the original
exception escapes `Retrying` and is caught by the generic handler) yields
`"Tool invocation failed after multiple retries"`. -/
def invoke_tool_with_retry (env : Env) :
    Nat → St → ToolOut × St
  | 0, s => (ToolOut.failedRetries, s)
  | n + 1, s =>
    match env.toolAttempt s.cAttempt with
    | AttemptResult.val v => (ToolOut.val v, { s with cAttempt := s.cAttempt + 1 })
    | AttemptResult.fatal => (ToolOut.failed, { s with cAttempt := s.cAttempt + 1 })
    | AttemptResult.retryable =>
      invoke_tool_with_retry env n { s with cAttempt := s.cAttempt + 1 }

/-- Processing of one tool call inside
`Controller._invoke_tools_after_llm_response`: build the cache key, return a
cached result unchanged if present, otherwise look the name up in the tool
registry; a found tool is invoked through the retry wrapper and the output
cached unless the name is `extract_zip`; an unknown name yields output
`None`. -/
def invokeOneToolCall (env : Env) (p : Params) (tc : ToolCall) (s : St) :
    ToolOut × St :=
  let tool_name := strLower tc.name
  let key := toolCallKey tc.name tc.args
  match cacheLookup s.cache key with
  | some out => (out, s)
  | Option.none =>
    if tool_name ∈ p.registry then
      let r := invoke_tool_with_retry env p.max_tool_retries s
      let s := r.2
      if tool_name ≠ "extract_zip" then
        (r.1, { s with cache := cacheInsert s.cache key r.1 })
      else (r.1, s)
    else (ToolOut.noneOut, s)

/-- Embeds `Controller._invoke_tools_after_llm_response`: process the calls
in order, collecting the outputs. -/
def invoke_tools_after_llm_response (env : Env) (p : Params) :
    List ToolCall → St → List ToolOut × St
  | [], s => ([], s)
  | tc :: rest, s =>
    let r := invokeOneToolCall env p tc s
    let rs := invoke_tools_after_llm_response env p rest r.2
    (r.1 :: rs.1, rs.2)

end Controller

section RetrieveBranch

/-- The inner query-fixing loop of `Controller._perform_retrieve_branch`:
`while not get_result[1] and not (get_result[1] and is_empty_solution(solution))
and fix_retry_i < max_cypher_fixing_retry`, embedded literally; note that it
tests the `solution` variable, which is not updated inside this loop.  Each
iteration asks `fix_cypher` for a repaired query and re-reads.  Fuel is the
number of fixing retries left. -/
def retrieveFixLoop (env : Env) :
    Nat → GetResult → PyVal → String → St → GetResult × String × St
  | 0, g, _, q, s => (g, q, s)
  | fuel + 1, g, sol, q, s =>
    if !g.success && !(g.success && is_empty_solution sol) then
      let q := env.fixCypher s.cFixCy
      let s := { s with cFixCy := s.cFixCy + 1 }
      let g := env.reads s.cReads
      let s := { s with cReads := s.cReads + 1 }
      retrieveFixLoop env fuel g sol q s
    else (g, q, s)

/-- The outer retry loop of `Controller._perform_retrieve_branch`:
`while (not get_result[1] or is_empty_solution(solution)) and
retrieve_retry_i < max_retrieve_query_retry`.  Note that the tested
`solution` variable is only assigned inside the loop body (after the fixing
loop), so on entry it still holds its previous value.  After the fixing loop
the body stores `get_result[0]` into `solution` and, if the result still
failed or is empty, asks `define_retrieve_query` for a fresh query and reads
once more.  Fuel is the number of outer retries left. -/
def retrieveOuterLoop (env : Env) (maxFix : Nat) :
    Nat → GetResult → PyVal → String → St → GetResult × PyVal × String × St
  | 0, g, sol, q, s => (g, sol, q, s)
  | fuel + 1, g, sol, q, s =>
    if !g.success || is_empty_solution sol then
      let r := retrieveFixLoop env maxFix g sol q s
      let g := r.1
      let q := r.2.1
      let s := r.2.2
      let sol := g.payload
      if !g.success || is_empty_solution sol then
        let q := env.newRetrieve s.cNewRet
        let s := { s with cNewRet := s.cNewRet + 1 }
        let g := env.reads s.cReads
        let s := { s with cReads := s.cReads + 1 }
        retrieveOuterLoop env maxFix fuel g sol q s
      else retrieveOuterLoop env maxFix fuel g sol q s
    else (g, sol, q, s)

/-- Processing of one candidate retrieve query: the initial `graph.get_query`
call followed by the outer retry loop; returns the payload appended to the
solutions list and the final value of the shared `solution` variable. -/
def performOneRetrieve (env : Env) (p : Params) (q : String) (sol : PyVal)
    (s : St) : PyVal × PyVal × St :=
  let g := env.reads s.cReads
  let s := { s with cReads := s.cReads + 1 }
  let r := retrieveOuterLoop env p.max_cypher_fixing_retry
    p.max_retrieve_query_retry g sol q s
  (r.1.payload, r.2.1, r.2.2.2)

/-- The `for retrieve_query in retrieve_queries` loop of
`Controller._perform_retrieve_branch`; the `solution` local is shared across
the candidate queries.  Returns the appended payloads. -/
def performRetrieveQueries (env : Env) (p : Params) :
    List String → PyVal → St → List PyVal × St
  | [], _, s => ([], s)
  | q :: rest, sol, s =>
    let r := performOneRetrieve env p q sol s
    let rs := performRetrieveQueries env p rest r.2.1 r.2.2
    (r.1 :: rs.1, rs.2)

/-- Embeds `Controller._perform_retrieve_branch`, whose `solution` local is
initialized to `""`. -/
def perform_retrieve_branch (env : Env) (p : Params)
    (retrieve_queries : List String) (s : St) : List PyVal × St :=
  performRetrieveQueries env p retrieve_queries (PyVal.str "") s

end RetrieveBranch

section InsertBranch

/-- One `graph.write_query` call: consume the next write outcome. -/
def doWrite (env : Env) (s : St) : (Bool × String) × St :=
  (env.writes s.cWrites, { s with cWrites := s.cWrites + 1 })

/-- The `while not write_response[0] and retry_i < max_cypher_fixing_retry`
loop of `Controller._insert_logic`: ask `fix_cypher` for a repaired query and
re-execute.  Fuel is the number of fixing retries left. -/
def insertFixLoop (env : Env) :
    Nat → (Bool × String) → String → St → St
  | 0, _, _, s => s
  | fuel + 1, wr, _, s =>
    if !wr.1 then
      let q := env.fixCypher s.cFixCy
      let s := { s with cFixCy := s.cFixCy + 1 }
      let r := doWrite env s
      insertFixLoop env fuel r.1 q r.2
    else s

/-- Execute one write query with the bounded fixing loop. -/
def execWriteWithFix (env : Env) (p : Params) (q : String) (s : St) : St :=
  let r := doWrite env s
  insertFixLoop env p.max_cypher_fixing_retry r.1 q r.2

/-- The `new_information` prompt text of `Controller._insert_logic`. -/
def newInformationText (call : ToolCall) (result : ToolOut) : String :=
  "function \x27" ++
    pyRepr (PyVal.dict [("name", PyVal.str call.name), ("args", PyVal.dict call.args)]) ++
    "\x27 returned: \x27" ++ toolOutStr result ++ "\x27"

/-- The `for call, result in zip(tool_calls, tools_results)` loop of
`Controller._insert_logic`: for every call (whatever its output, including the
`None` of an unknown tool) ask `define_cypher_query_given_new_information`
for write queries, execute each with the fixing loop, then re-render the
graph state.  Returns the final `existing_entities_and_relationships`. -/
def insertPerCall (env : Env) (p : Params) :
    List (ToolCall × ToolOut) → String → St → String × St
  | [], gs, s => (gs, s)
  | (call, result) :: rest, _, s =>
    let _newInfo := newInformationText call result
    let queries := env.writeQueriesGen s.cWriteGen
    let s := { s with cWriteGen := s.cWriteGen + 1 }
    let s := queries.foldl (fun s q => execWriteWithFix env p q s) s
    let gs := env.renders s.cRender
    let s := { s with cRender := s.cRender + 1 }
    insertPerCall env p rest gs s

/-- Embeds `Controller._insert_logic`: ask for tool calls, invoke them (with
cache), extend `tool_calls_made`, then integrate each result into the graph.
Returns the new graph view and the extended `tool_calls_made`. -/
def insert_logic (env : Env) (p : Params) (tool_calls_made : List ToolCall)
    (existing : String) (s : St) : String × List ToolCall × St :=
  let tool_calls := env.toolCallsGen s.cToolGen
  let s := { s with cToolGen := s.cToolGen + 1 }
  let r := invoke_tools_after_llm_response env p tool_calls s
  let tools_results := r.1
  let s := r.2
  let tool_calls_made := tool_calls_made ++ tool_calls
  let r2 := insertPerCall env p (tool_calls.zip tools_results) existing s
  (r2.1, tool_calls_made, r2.2)

end InsertBranch

section RetrieveLogic

/-- `repr` of one element of the `math_solution` list, for the f-string. -/
def toolOutRepr : ToolOut → String
  | ToolOut.val v => pyRepr v
  | ToolOut.failed => "\x27Tool invocation failed.\x27"
  | ToolOut.failedRetries => "\x27Tool invocation failed after multiple retries\x27"
  | ToolOut.noneOut => "None"

/-- Python `x is None` on a tool output. -/
def toolOutIsNone : ToolOut → Bool
  | ToolOut.noneOut => true
  | ToolOut.val PyVal.none => true
  | _ => false

/-- Embeds `Controller._get_math_response`: ask the math-bound LLM for a
Python tool call, invoke it (through the same cache-aware dispatcher), and
when a first non-`None` output exists append it to the partial solution. -/
def get_math_response (env : Env) (p : Params) (sol : PyVal) (s : St) :
    PyVal × St :=
  let python_tool_call := env.mathToolCalls s.cMathT
  let s := { s with cMathT := s.cMathT + 1 }
  let r := invoke_tools_after_llm_response env p python_tool_call s
  let math_solution := r.1
  let s := r.2
  if 0 < math_solution.length &&
      !(toolOutIsNone (math_solution.headD ToolOut.noneOut)) then
    (PyVal.str (pyStr sol ++
      "\n In addition, this is the response given by Python after calculations. Use the numbers and the logic as you see fit. <python_math_solution>" ++
      "[" ++ String.intercalate ", " (math_solution.map toolOutRepr) ++ "]" ++
      "<\\python_math_solution>."), s)
  else (sol, s)

/-- The `for i in range(self.max_final_solution_parsing)` loop: one
`parse_solution_with_llm` call per round. -/
def parseRounds (env : Env) : Nat → St → List String × St
  | 0, s => ([], s)
  | n + 1, s =>
    let v := env.parseSol s.cParse
    let s := { s with cParse := s.cParse + 1 }
    let r := parseRounds env n s
    (v :: r.1, r.2)

/-- The `for sol in solutions` loop of `Controller._retrieve_logic`:
decide whether math is needed, optionally post-process with the Python tool,
then parse the solution `max_final_solution_parsing` times. -/
def parseSolutionsLoop (env : Env) (p : Params) :
    List PyVal → St → List String × St
  | [], s => ([], s)
  | sol :: rest, s =>
    let need := env.needMath s.cNeedMath
    let s := { s with cNeedMath := s.cNeedMath + 1 }
    let r0 := if need then get_math_response env p sol s else (sol, s)
    let s := r0.2
    let r1 := parseRounds env p.max_final_solution_parsing s
    let r2 := parseSolutionsLoop env p rest r1.2
    (r1.1 ++ r2.1, r2.2)

/-- Python whitespace for `str.strip()`. -/
def pyIsSpace (c : Char) : Bool :=
  c = ' ' || c = '\t' || c = '\n' || c = '\r' ||
    c.toNat = 11 || c.toNat = 12

/-- Python `str.strip()`: drop whitespace from both ends. -/
def pyStrip (s : String) : String :=
  String.mk (((s.data.dropWhile pyIsSpace).reverse.dropWhile pyIsSpace).reverse)

/-- The Python blank test
`all(not parsed_sol.strip() for parsed_sol in array_parsed_solutions if parsed_sol)`:
over the truthy (non-empty) parsed strings, all strip to nothing; `all` of an
empty generator is `True`. -/
def allParsedBlank (parsed : List String) : Bool :=
  (parsed.filter (fun x => x ≠ "")).all (fun x => pyStrip x = "")

/-- Which terminal branch of `Controller._retrieve_logic` produced the
answer: the forced-solution branch for empty retrieves, the forced-solution
branch for blank parses, or the final-solution vote. -/
inductive PathTag where
  | outerForced : PathTag
  | innerForced : PathTag
  | voted : PathTag
deriving DecidableEq, Repr

/-- The `for i in range(self.num_next_steps_decision)` loop generating
forced retrieve queries. -/
def forcedRetrieveQueries (env : Env) : Nat → St → List String × St
  | 0, s => ([], s)
  | n + 1, s =>
    let q := env.forcedRetrieve s.cForcedRet
    let s := { s with cForcedRet := s.cForcedRet + 1 }
    let r := forcedRetrieveQueries env n s
    (q :: r.1, r.2)

/-- Embeds `Controller._retrieve_logic`.  When the iteration budget is
exhausted with no solutions, forced retrieve queries are generated and run.
If the accumulated solutions are not all empty they are parsed (with optional
math post-processing) and either voted on or, if every parsed string is
blank, replaced by a forced solution; otherwise the forced solution path is
taken directly.  Returns the answer and the branch tag. -/
def retrieve_logic (env : Env) (p : Params) (current_iteration : Nat)
    (_existing : String) (solutions : List PyVal) (s : St) :
    String × PathTag × St :=
  let r0 :=
    if current_iteration = p.max_iterations && solutions.length = 0 then
      let rq := forcedRetrieveQueries env p.num_next_steps_decision s
      if rq.1 ≠ [] then
        let rb := perform_retrieve_branch env p rq.1 rq.2
        (solutions ++ rb.1, rb.2)
      else (solutions, rq.2)
    else (solutions, s)
  let solutions := r0.1
  let s := r0.2
  if !(is_empty_solution (PyVal.list solutions)) then
    let pr := parseSolutionsLoop env p solutions s
    let parsed := pr.1
    let s := pr.2
    if allParsedBlank parsed then
      let s := { s with cForcedSol := s.cForcedSol + 1 }
      let v := env.parseSol s.cParse
      let s := { s with cParse := s.cParse + 1 }
      (v, PathTag.innerForced, s)
    else
      let v := env.finalSol s.cFinalSol
      let s := { s with cFinalSol := s.cFinalSol + 1 }
      (v, PathTag.voted, s)
  else
    let s := { s with cForcedSol := s.cForcedSol + 1 }
    let v := env.parseSol s.cParse
    let s := { s with cParse := s.cParse + 1 }
    (v, PathTag.outerForced, s)

end RetrieveLogic

section IterativeLoop

/-- The vote tally dictionary of `Controller._iterative_next_step_logic`. -/
structure Tally where
  retrieve : Nat
  insert : Nat
  retrieveContent : List String
  insertContent : List String

/-- The initial tally. -/
def Tally.empty : Tally := ⟨0, 0, [], []⟩

/-- One vote applied to the tally dictionary:
`retrieve_next_step[query_type] += 1` followed by
`retrieve_next_step[query_type + "_CONTENT"].append(...)`.  An unknown key
raises `KeyError`, which is caught and logged; the two `_CONTENT` keys are
present in the dictionary but hold lists, so `+= 1` raises an uncaught
`TypeError`. -/
def applyVote (t : Tally) (q ty : String) : Except String Tally :=
  if ty = "RETRIEVE" then
    Except.ok { t with retrieve := t.retrieve + 1,
                       retrieveContent := t.retrieveContent ++ [q] }
  else if ty = "INSERT" then
    Except.ok { t with insert := t.insert + 1,
                       insertContent := t.insertContent ++ [q] }
  else if ty = "RETRIEVE_CONTENT" || ty = "INSERT_CONTENT" then
    Except.error "TypeError: unsupported operand for list += int"
  else Except.ok t

/-- The `for i in range(self.num_next_steps_decision)` vote loop: each round
consumes one `define_next_step` outcome. -/
def voteLoop (env : Env) : Nat → Tally → St → Except String Tally × St
  | 0, t, s => (Except.ok t, s)
  | n + 1, t, s =>
    let v := env.nextStep s.cNextStep
    let s := { s with cNextStep := s.cNextStep + 1 }
    match applyVote t v.1 v.2 with
    | Except.error e => (Except.error e, s)
    | Except.ok t => voteLoop env n t s

/-- What one iteration of the outer loop did. -/
inductive BranchTag where
  | insertStep : BranchTag
  | retrieveBreak : BranchTag
deriving DecidableEq, Repr

/-- The `while current_iteration < self.max_iterations` loop of
`Controller._iterative_next_step_logic`: tally the votes, then either take
the retrieve branch and break, or merge the insert reasons (one
`merge_reasons_to_insert` call when more than one INSERT vote) and run the
insert branch.  Fuel is `max_iterations - current_iteration`. -/
def iterLoop (env : Env) (p : Params) :
    Nat → String → List ToolCall → List PyVal → Nat → List BranchTag → St →
    Except String (List PyVal × String × Nat × List BranchTag × St)
  | 0, gs, _, raws, iter, trace, s => Except.ok (raws, gs, iter, trace, s)
  | fuel + 1, gs, tcm, raws, iter, trace, s =>
    match voteLoop env p.num_next_steps_decision Tally.empty s with
    | (Except.error e, _) => Except.error e
    | (Except.ok t, s) =>
      if t.retrieve > t.insert then
        let r := perform_retrieve_branch env p t.retrieveContent s
        Except.ok (raws ++ r.1, gs, iter, trace ++ [BranchTag.retrieveBreak], r.2)
      else
        let _reason := if 0 < t.insert then t.insertContent.headD "" else ""
        let s := if 1 < t.insert then { s with cMerge := s.cMerge + 1 } else s
        let r := insert_logic env p tcm gs s
        iterLoop env p fuel r.1 r.2.1 raws (iter + 1)
          (trace ++ [BranchTag.insertStep]) r.2.2

/-- Embeds `Controller._iterative_next_step_logic`: run the outer loop from
an empty graph view, then finalize through `_retrieve_logic`.  Returns the
answer, `current_iteration`, the finalization branch tag and the trace of
iteration branches. -/
def iterative_next_step_logic (env : Env) (p : Params) (s : St) :
    Except String (String × Nat × PathTag × List BranchTag × St) :=
  match iterLoop env p p.max_iterations "" [] [] 0 [] s with
  | Except.error e => Except.error e
  | Except.ok (raws, gs, iter, trace, s) =>
    let r := retrieve_logic env p iter gs raws s
    Except.ok (r.1, iter, r.2.1, trace, r.2.2)

end IterativeLoop

section SupportDefs

/-- A graph script that succeeds without touching the graph. -/
def nxIdScript : NxGraph → NxGraph × Option String := fun g => (g, Option.none)

/-- A graph script that adds one node and then raises. -/
def nxFailScript : NxGraph → NxGraph × Option String := fun g =>
  ({ g with nodes := g.nodes ++ [("n", [])] }, some "NameError")

/-- The empty NetworkX backend state. -/
def nxEmptyState : NxState := ⟨⟨[], []⟩, 0, []⟩

end SupportDefs

/-- C1: the claim asserts that every backend increments the snapshot counter
on a successful write; the triple-store backend does not: a successful RDF4J
write returns success yet leaves the snapshot counter at 0 and writes no
snapshot file, because the export call is commented out. -/
theorem C1_counterexample :
    (rdf4j_write_query (some "INSERT DATA x") Option.none ⟨0, []⟩).1.1 = true ∧
    (rdf4j_write_query (some "INSERT DATA x") Option.none ⟨0, []⟩).2.current_snapshot_id = 0 ∧
    (rdf4j_write_query (some "INSERT DATA x") Option.none ⟨0, []⟩).2.files = ([] : List String) := by
  refine ⟨rfl, rfl, rfl⟩

/-- C1 (amended): the labeled-property and in-memory backends increment the
snapshot counter by exactly one and write the counter-named snapshot file on
every successful write, and leave the snapshot state unchanged on every
failed write; the triple-store backend never changes its snapshot state on a
write. -/
theorem C1_amended :
    (∀ q tx ex st r, neo4j_write_query q tx ex st = Except.ok r →
      (r.1.1 = true → r.2.current_snapshot_id = st.current_snapshot_id + 1 ∧
        r.2.files = st.files ++
          ["snapshot_" ++ toString st.current_snapshot_id ++ ".json"]) ∧
      (r.1.1 = false → r.2 = st)) ∧
    (∀ q ex st,
      ((nx_write_query q ex st).1.1 = true →
        (nx_write_query q ex st).2.current_snapshot_id = st.current_snapshot_id + 1 ∧
        (nx_write_query q ex st).2.files = st.files ++
          ["nx_snapshot_" ++ toString st.current_snapshot_id ++ ".json"]) ∧
      ((nx_write_query q ex st).1.1 = false →
        (nx_write_query q ex st).2.current_snapshot_id = st.current_snapshot_id ∧
        (nx_write_query q ex st).2.files = st.files)) ∧
    (∀ q w st, (rdf4j_write_query q w st).2 = st) := by
  refine ⟨?_, ?_, ?_⟩
  · intro q tx ex st r h
    cases q with
    | none =>
      injection h with h
      subst h
      simp
    | some qs =>
      cases tx with
      | otherErr e => exact Except.noConfusion h
      | clientErr e =>
        injection h with h
        subst h
        simp
      | ok =>
        cases ex with
        | otherErr e => exact Except.noConfusion h
        | clientErr e =>
          injection h with h
          subst h
          simp
        | ok =>
          injection h with h
          subst h
          simp [neo4j_write_query]
  · intro q ex st
    cases q with
    | none => simp [nx_write_query]
    | some script =>
      cases hs : (script st.G).2 <;> cases ex <;>
        simp_all [nx_write_query]
  · intro q w st
    cases q with
    | none => simp [rdf4j_write_query]
    | some qs =>
      by_cases hq : qs = "" <;> cases w <;>
        simp_all [rdf4j_write_query]

/-- C1 (amended) at concrete inputs: a successful Neo4j write from counter 0
produces counter 1 and file `snapshot_0.json`; a successful NetworkX write
produces counter 1; an RDF4J write leaves the state unchanged. -/
theorem C1_amended_witness :
    ((⟨1, ["snapshot_0.json"]⟩ : Neo4jState).current_snapshot_id =
       (⟨0, []⟩ : Neo4jState).current_snapshot_id + 1) ∧
    ((nx_write_query (some nxIdScript) Option.none nxEmptyState).2.current_snapshot_id =
       nxEmptyState.current_snapshot_id + 1) ∧
    ((rdf4j_write_query (some "INSERT DATA x") Option.none ⟨3, ["a.xml"]⟩).2 =
       (⟨3, ["a.xml"]⟩ : RdfState)) :=
  ⟨((C1_amended.1 (some "CREATE (n)") TxOutcome.ok TxOutcome.ok ⟨0, []⟩
      ((true, Option.none), ⟨1, ["snapshot_0.json"]⟩) rfl).1 rfl).1,
   ((C1_amended.2.1 (some nxIdScript) Option.none nxEmptyState).1 rfl).1,
   C1_amended.2.2 (some "INSERT DATA x") Option.none ⟨3, ["a.xml"]⟩⟩

/-- C8: in the in-memory variant a write-query whose script raises returns
`(False, e)` and restores the graph to its pre-call state (the deep copy);
a write-query that succeeds (script and export both complete) keeps the
mutated graph, increments the snapshot counter and writes the snapshot
file. -/
theorem C8_copy_on_write :
    ∀ (script : NxGraph → NxGraph × Option String) (st : NxState),
      (∀ e, (script st.G).2 = some e →
        nx_write_query (some script) Option.none st = ((false, some e), st)) ∧
      ((script st.G).2 = Option.none →
        nx_write_query (some script) Option.none st =
          ((true, Option.none),
           ⟨(script st.G).1, st.current_snapshot_id + 1,
            st.files ++
              ["nx_snapshot_" ++ toString st.current_snapshot_id ++ ".json"]⟩)) := by
  intro script st
  constructor
  · intro e he
    simp [nx_write_query, he]
  · intro hn
    simp [nx_write_query, hn]

/-- C8 at concrete inputs: a raising script leaves the empty state intact and
reports its error; the identity script commits and snapshots. -/
theorem C8_copy_on_write_witness :
    (nx_write_query (some nxFailScript) Option.none nxEmptyState =
      ((false, some "NameError"), nxEmptyState)) ∧
    (nx_write_query (some nxIdScript) Option.none nxEmptyState =
      ((true, Option.none),
       ⟨(nxIdScript nxEmptyState.G).1, nxEmptyState.current_snapshot_id + 1,
        nxEmptyState.files ++
          ["nx_snapshot_" ++ toString nxEmptyState.current_snapshot_id ++ ".json"]⟩)) :=
  ⟨(C8_copy_on_write nxFailScript nxEmptyState).1 "NameError" rfl,
   (C8_copy_on_write nxIdScript nxEmptyState).2 rfl⟩


/-- Each iteration of the fix loop decrements `times_to_fix` by one and makes
exactly one `_fix_code` call, so the decrements equal the fix attempts. -/
lemma pyRunFixLoop_spec (env : PyToolEnv) (ttf : Bool) :
    ∀ (fuel : Nat) (respOk : Bool) (txt : String) (st : PyToolState),
      ∃ k : Nat,
        (pyRunFixLoop env ttf fuel respOk txt st).2.cFix = st.cFix + k ∧
        (pyRunFixLoop env ttf fuel respOk txt st).2.times_to_fix =
          st.times_to_fix - k := by
  intro fuel
  induction fuel with
  | zero =>
    intro respOk txt st
    refine ⟨0, ?_, ?_⟩ <;> simp only [pyRunFixLoop, pyRunFinish] <;>
      by_cases h : respOk <;> simp [h]
  | succ n ih =>
    intro respOk txt st
    by_cases hc : (!respOk && ttf && decide (st.times_to_fix > 0)) = true
    · simp only [Bool.and_eq_true, Bool.not_eq_true', decide_eq_true_eq] at hc
      obtain ⟨⟨h1, h2⟩, h3⟩ := hc
      subst h1
      subst h2
      cases hf : env.fixes st.cFix with
      | raised e =>
        refine ⟨1, ?_, ?_⟩ <;>
          simp [pyRunFixLoop, pyRunFinish, hf, h3]
      | fixed code mods =>
        cases hp : env.posts st.cPost with
        | raised e =>
          refine ⟨1, ?_, ?_⟩ <;>
            simp [pyRunFixLoop, hf, hp, h3]
        | respOk body =>
          obtain ⟨k, hk1, hk2⟩ := ih true body
            { st with times_to_fix := st.times_to_fix - 1,
                      cFix := st.cFix + 1, cPost := st.cPost + 1 }
          refine ⟨1 + k, ?_, ?_⟩ <;>
            simp only [pyRunFixLoop, hf, hp] <;>
            simp only [] at hk1 hk2 ⊢ <;>
            simp [h3, hk1, hk2] <;> omega
        | respErr text =>
          obtain ⟨k, hk1, hk2⟩ := ih false text
            { st with times_to_fix := st.times_to_fix - 1,
                      cFix := st.cFix + 1, cPost := st.cPost + 1 }
          refine ⟨1 + k, ?_, ?_⟩ <;>
            simp only [pyRunFixLoop, hf, hp] <;>
            simp only [] at hk1 hk2 ⊢ <;>
            simp [h3, hk1, hk2] <;> omega
    · refine ⟨0, ?_, ?_⟩ <;>
        simp only [pyRunFixLoop, pyRunFinish] <;>
        rw [if_neg hc] <;>
        by_cases h : respOk <;> simp [h]

/-- The fix loop never increases `times_to_fix`. -/
lemma pyRunFixLoop_mono (env : PyToolEnv) (ttf : Bool) (fuel : Nat)
    (respOk : Bool) (txt : String) (st : PyToolState) :
    (pyRunFixLoop env ttf fuel respOk txt st).2.times_to_fix ≤
      st.times_to_fix := by
  obtain ⟨k, _, hk⟩ := pyRunFixLoop_spec env ttf fuel respOk txt st
  rw [hk]
  omega

/-- One `_run` call never increases `times_to_fix`. -/
lemma pyRun_mono (env : PyToolEnv) (ttf : Bool) (st : PyToolState) :
    (pyRun env ttf st).2.times_to_fix ≤ st.times_to_fix := by
  rw [pyRun]
  cases hp : env.posts st.cPost with
  | raised e => simp
  | respOk body => exact pyRunFixLoop_mono env ttf _ true body _
  | respErr text => exact pyRunFixLoop_mono env ttf _ false text _

/-- C10: `times_to_fix` never increases across one `_run`, nor across any
sequence of `_run` calls on the same instance (it is never reset); each loop
iteration pairs one decrement with one `_fix_code` call; and once the field
is 0 a failing execution returns the error payload immediately, consuming no
fix call. -/
theorem C10_times_to_fix :
    (∀ (env : PyToolEnv) (ttf : Bool) (st : PyToolState),
      (pyRun env ttf st).2.times_to_fix ≤ st.times_to_fix) ∧
    (∀ (ttf : Bool) (envs : List PyToolEnv) (st : PyToolState),
      (pyRunSeq ttf envs st).times_to_fix ≤ st.times_to_fix) ∧
    (∀ (env : PyToolEnv) (ttf : Bool) (fuel : Nat) (respOk : Bool)
       (txt : String) (st : PyToolState),
      ∃ k : Nat,
        (pyRunFixLoop env ttf fuel respOk txt st).2.cFix = st.cFix + k ∧
        (pyRunFixLoop env ttf fuel respOk txt st).2.times_to_fix =
          st.times_to_fix - k) ∧
    (∀ (env : PyToolEnv) (st : PyToolState) (txt : String),
      st.times_to_fix = 0 → env.posts st.cPost = PostResult.respErr txt →
      pyRun env true st =
        (RunOut.errorPayload txt, { st with cPost := st.cPost + 1 })) := by
  refine ⟨pyRun_mono, ?_, pyRunFixLoop_spec, ?_⟩
  · intro ttf envs
    induction envs with
    | nil => intro st; simp [pyRunSeq]
    | cons e rest ih =>
      intro st
      have h1 := pyRun_mono e ttf st
      have h2 := ih (pyRun e ttf st).2
      simp only [pyRunSeq, List.foldl_cons] at h2 ⊢
      exact le_trans h2 h1
  · intro env st txt h0 hp
    rw [pyRun, hp]
    have ht : ({ st with cPost := st.cPost + 1 } : PyToolState).times_to_fix.toNat = 0 := by
      simp [h0]
    rw [ht]
    simp [pyRunFixLoop, pyRunFinish]

/-- C10 at concrete inputs: with the repair budget at 0 and a failing
executor response, `_run` returns the error payload and consumes no fix
call. -/
theorem C10_times_to_fix_witness :
    pyRun ⟨fun _ => PostResult.respErr "err", fun _ => FixResult.raised "e"⟩
        true ⟨0, 0, 0⟩ =
      (RunOut.errorPayload "err",
       { (⟨0, 0, 0⟩ : PyToolState) with cPost := (0 : Nat) + 1 }) :=
  C10_times_to_fix.2.2.2 ⟨fun _ => PostResult.respErr "err",
    fun _ => FixResult.raised "e"⟩ ⟨0, 0, 0⟩ "err" rfl rfl

/-- An environment with constant streams, used for concrete runs. -/
def defaultEnv : Env where
  nextStep := fun _ => ("", "INSERT")
  mergeReasons := fun _ => "merged"
  toolCallsGen := fun _ => []
  writeQueriesGen := fun _ => []
  fixCypher := fun _ => "fixed"
  newRetrieve := fun _ => "new"
  forcedRetrieve := fun _ => "forced"
  needMath := fun _ => false
  mathToolCalls := fun _ => []
  parseSol := fun _ => "x"
  forcedSol := fun _ => "guess"
  finalSol := fun _ => "ans"
  reads := fun _ => ⟨PyVal.list [], true, ""⟩
  writes := fun _ => (true, "")
  renders := fun _ => "graph state"
  toolAttempt := fun _ => AttemptResult.val (PyVal.str "out")

/-- The default controller parameters of `ControllerInterface.__init__`
(`max_iterations=5`, `num_next_steps_decision=5`, retry maxima 3, 3, 3,
`max_tool_retries=6`), with an empty tool registry. -/
def defaultParams : Params where
  max_iterations := 5
  num_next_steps_decision := 5
  max_retrieve_query_retry := 3
  max_cypher_fixing_retry := 3
  max_final_solution_parsing := 3
  max_tool_retries := 6
  registry := []

/-- Parameters for the concrete single-vote, single-parse runs. -/
def smallParams : Params :=
  { defaultParams with max_iterations := 1, num_next_steps_decision := 1,
                       max_final_solution_parsing := 1 }

/-- C9: `is_empty_solution` classifies every string, the empty string
included, as non-empty; consequently a retrieve whose payload is `""` counts
as a found solution: `_retrieve_logic` takes the parse-and-vote branch, not
the forced-solution branch. -/
theorem C9_empty_string_not_empty :
    (∀ s : String, is_empty_solution (PyVal.str s) = false) ∧
    (retrieve_logic defaultEnv smallParams 0 "" [PyVal.str ""] St.init).2.1 =
      PathTag.voted ∧
    (retrieve_logic defaultEnv smallParams 0 "" [PyVal.str ""] St.init).1 =
      "ans" :=
  ⟨fun _ => rfl, rfl, rfl⟩

/-- C2: the claim says a first read that succeeds with an empty payload is
retried; in the code the retry loop tests the stale `solution` variable
(still `""`, which the emptiness predicate deems non-empty), so the branch
performs exactly one `graph.get_query` call and appends the empty payload
immediately. -/
theorem C2_stale_solution_variable :
    (perform_retrieve_branch defaultEnv defaultParams ["MATCH (n) RETURN n"]
        St.init).2.cReads = 1 ∧
    (perform_retrieve_branch defaultEnv defaultParams ["MATCH (n) RETURN n"]
        St.init).1 = [PyVal.list []] ∧
    is_empty_solution (PyVal.list []) = true ∧
    (defaultEnv.reads 0).success = true :=
  ⟨rfl, rfl, rfl, rfl⟩

/-- The query-fixing loop issues at most one read per unit of fuel. -/
lemma retrieveFixLoop_reads (env : Env) :
    ∀ (fuel : Nat) (g : GetResult) (sol : PyVal) (q : String) (s : St),
      (retrieveFixLoop env fuel g sol q s).2.2.cReads ≤ s.cReads + fuel := by
  intro fuel
  induction fuel with
  | zero => intro g sol q s; simp [retrieveFixLoop]
  | succ n ih =>
    intro g sol q s
    by_cases hc : (!g.success && !(g.success && is_empty_solution sol)) = true
    · simp only [retrieveFixLoop, if_pos hc]
      have h2 := ih (env.reads s.cReads) sol (env.fixCypher s.cFixCy)
        { s with cFixCy := s.cFixCy + 1, cReads := s.cReads + 1 }
      simp only [] at h2 ⊢
      omega
    · simp only [retrieveFixLoop, if_neg hc]
      omega

/-- The outer retry loop issues at most `maxFix + 1` reads per unit of fuel. -/
lemma retrieveOuterLoop_reads (env : Env) (maxFix : Nat) :
    ∀ (fuel : Nat) (g : GetResult) (sol : PyVal) (q : String) (s : St),
      (retrieveOuterLoop env maxFix fuel g sol q s).2.2.2.cReads ≤
        s.cReads + fuel * (maxFix + 1) := by
  intro fuel
  induction fuel with
  | zero => intro g sol q s; simp [retrieveOuterLoop]
  | succ n ih =>
    intro g sol q s
    by_cases hc : (!g.success || is_empty_solution sol) = true
    · simp only [retrieveOuterLoop, if_pos hc]
      have hfix := retrieveFixLoop_reads env maxFix g sol q s
      set r := retrieveFixLoop env maxFix g sol q s with hr
      by_cases hc2 : (!r.1.success || is_empty_solution r.1.payload) = true
      · simp only [if_pos hc2]
        have hrec := ih (env.reads r.2.2.cReads) r.1.payload
          (env.newRetrieve r.2.2.cNewRet)
          { r.2.2 with cNewRet := r.2.2.cNewRet + 1, cReads := r.2.2.cReads + 1 }
        simp only [] at hrec ⊢
        have hm : (n + 1) * (maxFix + 1) = n * (maxFix + 1) + (maxFix + 1) :=
          Nat.succ_mul n (maxFix + 1)
        omega
      · simp only [if_neg hc2]
        have hrec := ih r.1 r.1.payload r.2.1 r.2.2
        have hm : (n + 1) * (maxFix + 1) = n * (maxFix + 1) + (maxFix + 1) :=
          Nat.succ_mul n (maxFix + 1)
        omega
    · simp only [retrieveOuterLoop, if_neg hc]
      have : 0 ≤ (n + 1) * (maxFix + 1) := Nat.zero_le _
      omega

/-- C5: for every candidate retrieve query, the total number of
`graph.get_query` calls made on its behalf is at most
`max_retrieve_query_retry * (max_cypher_fixing_retry + 1) + 1`. -/
theorem C5_read_call_bound (env : Env) (p : Params) (q : String)
    (sol : PyVal) (s : St) :
    (performOneRetrieve env p q sol s).2.2.cReads ≤
      s.cReads +
        (p.max_retrieve_query_retry * (p.max_cypher_fixing_retry + 1) + 1) := by
  unfold performOneRetrieve
  have h := retrieveOuterLoop_reads env p.max_cypher_fixing_retry
    p.max_retrieve_query_retry (env.reads s.cReads) sol q
    { s with cReads := s.cReads + 1 }
  simp only [] at h ⊢
  omega

/-- Looking up the key just inserted returns the inserted value. -/
lemma cacheLookup_cacheInsert (key : String × String) (out : ToolOut) :
    ∀ cache, cacheLookup (cacheInsert cache key out) key = some out := by
  intro cache
  induction cache with
  | nil => simp [cacheInsert, cacheLookup, List.find?]
  | cons e rest ih =>
    by_cases he : e.1 = key
    · simp [cacheInsert, he, cacheLookup, List.find?]
    · simp only [cacheInsert, if_neg he]
      simp only [cacheLookup, List.find?] at ih ⊢
      simp [he, ih]

/-- The retry wrapper threads only the attempt cursor; the cache is
untouched. -/
lemma invoke_tool_with_retry_cache (env : Env) :
    ∀ (n : Nat) (s : St), (invoke_tool_with_retry env n s).2.cache = s.cache := by
  intro n
  induction n with
  | zero => intro s; rfl
  | succ k ih =>
    intro s
    cases h : env.toolAttempt s.cAttempt <;>
      simp [invoke_tool_with_retry, h, ih]

/-- Environment whose tool raises a non-retryable exception on every
invocation attempt. -/
def envFatal : Env := { defaultEnv with toolAttempt := fun _ => AttemptResult.fatal }

/-- Parameters with one registered tool named `t`. -/
def regParams : Params := { defaultParams with registry := ["t"] }

/-- The canonical JSON of an empty argument dictionary. -/
lemma json_dict_nil : json_dumps_sorted (PyVal.dict []) = "\x7b\x7d" := by
  simp only [json_dumps_sorted, json_pairs, sortPairsByKey, List.foldr,
    List.map, String.intercalate]
  rfl

/-- The cache key of the call `T` with no arguments. -/
lemma toolCallKey_T : toolCallKey "T" [] = ("t", "\x7b\x7d") := by
  simp only [toolCallKey, json_dict_nil]
  rfl

/-- C3: the claim says a cache entry is inserted exactly when the tool
invocation returns without raising; here the tool raises a non-retryable
exception on its invocation attempt, yet the failure string is inserted into
the cache under the canonical key. -/
theorem C3_counterexample :
    (∀ i, envFatal.toolAttempt i = AttemptResult.fatal) ∧
    cacheLookup (invokeOneToolCall envFatal regParams ⟨"T", []⟩ St.init).2.cache
        ("t", "\x7b\x7d") = some ToolOut.failed ∧
    (invokeOneToolCall envFatal regParams ⟨"T", []⟩ St.init).1 = ToolOut.failed := by
  refine ⟨fun _ => rfl, ?_, ?_⟩ <;>
    simp only [invokeOneToolCall, toolCallKey_T] <;> rfl

/-- C3 (amended): a cache entry under the key
`(lowercased name, canonical JSON of the arguments)` is inserted exactly when
the key misses the cache, the name resolves in the registry, and the name is
not `extract_zip` — including when the underlying tool raises, in which case
the cached value is the failure string the retry wrapper returns; a call
whose key is cached returns the cached output unchanged with the state (in
particular the invocation-attempt counter) untouched; an unresolved name
yields `None` and no cache entry; `extract_zip` is invoked but never
cached. -/
theorem C3_amended (env : Env) (p : Params) (tc : ToolCall) (s : St) :
    (∀ out, cacheLookup s.cache (toolCallKey tc.name tc.args) = some out →
      invokeOneToolCall env p tc s = (out, s)) ∧
    (cacheLookup s.cache (toolCallKey tc.name tc.args) = Option.none →
      strLower tc.name ∈ p.registry → strLower tc.name ≠ "extract_zip" →
      (invokeOneToolCall env p tc s).2.cache =
        cacheInsert (invoke_tool_with_retry env p.max_tool_retries s).2.cache
          (toolCallKey tc.name tc.args)
          (invoke_tool_with_retry env p.max_tool_retries s).1 ∧
      cacheLookup (invokeOneToolCall env p tc s).2.cache
          (toolCallKey tc.name tc.args) =
        some (invokeOneToolCall env p tc s).1) ∧
    (cacheLookup s.cache (toolCallKey tc.name tc.args) = Option.none →
      strLower tc.name ∉ p.registry →
      invokeOneToolCall env p tc s = (ToolOut.noneOut, s)) ∧
    (cacheLookup s.cache (toolCallKey tc.name tc.args) = Option.none →
      strLower tc.name = "extract_zip" →
      (invokeOneToolCall env p tc s).2.cache = s.cache) := by
  refine ⟨?_, ?_, ?_, ?_⟩
  · intro out h
    simp only [invokeOneToolCall, h]
  · intro h hreg hzip
    simp only [invokeOneToolCall, h, if_pos hreg, if_pos hzip]
    exact ⟨trivial, cacheLookup_cacheInsert _ _ _⟩
  · intro h hreg
    simp only [invokeOneToolCall, h, if_neg hreg]
  · intro h hzip
    by_cases hreg : strLower tc.name ∈ p.registry
    · simp only [invokeOneToolCall, h, if_pos hreg]
      rw [if_neg (by simp [hzip])]
      exact invoke_tool_with_retry_cache env p.max_tool_retries s
    · simp only [invokeOneToolCall, h, if_neg hreg]

/-- C3 (amended) at concrete inputs: with the key cached, the dispatcher
returns the cached value and leaves the state unchanged. -/
theorem C3_amended_witness :
    invokeOneToolCall envFatal regParams ⟨"T", []⟩
        { St.init with cache := [(("t", "\x7b\x7d"), ToolOut.val (PyVal.str "v"))] } =
      (ToolOut.val (PyVal.str "v"),
       { St.init with cache := [(("t", "\x7b\x7d"), ToolOut.val (PyVal.str "v"))] }) :=
  (C3_amended envFatal regParams ⟨"T", []⟩
      { St.init with cache := [(("t", "\x7b\x7d"), ToolOut.val (PyVal.str "v"))] }).1
    (ToolOut.val (PyVal.str "v"))
    (by simp only [toolCallKey_T]; rfl)

/-- The write-fixing loop only adds write calls. -/
lemma insertFixLoop_writes (env : Env) :
    ∀ (fuel : Nat) (wr : Bool × String) (q : String) (s : St),
      s.cWrites ≤ (insertFixLoop env fuel wr q s).cWrites ∧
      (insertFixLoop env fuel wr q s).cWriteGen = s.cWriteGen := by
  intro fuel
  induction fuel with
  | zero => intro wr q s; exact ⟨le_refl _, rfl⟩
  | succ k ih =>
    intro wr q s
    by_cases hw : (!wr.1) = true
    · simp only [insertFixLoop, if_pos hw]
      have h2 := ih (env.writes s.cWrites) (env.fixCypher s.cFixCy)
        { s with cFixCy := s.cFixCy + 1, cWrites := s.cWrites + 1 }
      simp only [doWrite] at h2 ⊢
      exact ⟨by omega, h2.2⟩
    · simp only [insertFixLoop, if_neg hw]
      exact ⟨le_refl _, by trivial⟩

/-- Executing one write query makes at least one write call and leaves the
write-query-generation cursor alone. -/
lemma execWriteWithFix_writes (env : Env) (p : Params) (q : String) (s : St) :
    s.cWrites + 1 ≤ (execWriteWithFix env p q s).cWrites ∧
    (execWriteWithFix env p q s).cWriteGen = s.cWriteGen := by
  unfold execWriteWithFix
  have := insertFixLoop_writes env p.max_cypher_fixing_retry
    (env.writes s.cWrites) q { s with cWrites := s.cWrites + 1 }
  simp only [doWrite] at this ⊢
  exact ⟨by omega, this.2⟩

/-- Executing a list of write queries makes at least one write call per
query. -/
lemma foldWrites (env : Env) (p : Params) :
    ∀ (qs : List String) (s : St),
      s.cWrites + qs.length ≤
        (qs.foldl (fun s q => execWriteWithFix env p q s) s).cWrites ∧
      (qs.foldl (fun s q => execWriteWithFix env p q s) s).cWriteGen =
        s.cWriteGen := by
  intro qs
  induction qs with
  | nil => intro s; exact ⟨le_refl _, rfl⟩
  | cons q rest ih =>
    intro s
    have h1 := execWriteWithFix_writes env p q s
    have h2 := ih (execWriteWithFix env p q s)
    simp only [List.foldl_cons, List.length_cons]
    exact ⟨by omega, by rw [h2.2, h1.2]⟩

/-- Environment that proposes one call to the unregistered tool `missing`
and one write query for every new-information round. -/
def env6 : Env :=
  { defaultEnv with
      toolCallsGen := fun _ => [⟨"missing", []⟩],
      writeQueriesGen := fun _ => ["CREATE (n:Fact)"] }

/-- C6: the claim says the write-query step is skipped for a tool call whose
name is not in the registry; in the code the call's output is replaced by
`None` but the write-query step still runs: one write-query generation call
and one write execution happen for the single unresolved call. -/
theorem C6_counterexample :
    (invoke_tools_after_llm_response env6 defaultParams [⟨"missing", []⟩]
        St.init).1 = [ToolOut.noneOut] ∧
    (insert_logic env6 defaultParams [] "" St.init).2.2.cWriteGen = 1 ∧
    (insert_logic env6 defaultParams [] "" St.init).2.2.cWrites = 1 :=
  ⟨rfl, rfl, rfl⟩

/-- C6 (amended): a tool call whose name is not in the registry gets output
`None`, and the write-query step for that call is not skipped: the
write-query generator is consulted once for it and every returned query is
executed at least once against the graph. -/
theorem C6_amended (env : Env) (p : Params) (tc : ToolCall) (gs : String)
    (s : St)
    (h1 : cacheLookup s.cache (toolCallKey tc.name tc.args) = Option.none)
    (h2 : strLower tc.name ∉ p.registry) :
    (invoke_tools_after_llm_response env p [tc] s).1 = [ToolOut.noneOut] ∧
    (insertPerCall env p [(tc, ToolOut.noneOut)] gs s).2.cWriteGen =
      s.cWriteGen + 1 ∧
    s.cWrites + (env.writeQueriesGen s.cWriteGen).length ≤
      (insertPerCall env p [(tc, ToolOut.noneOut)] gs s).2.cWrites := by
  refine ⟨?_, ?_, ?_⟩
  · have hone : invokeOneToolCall env p tc s = (ToolOut.noneOut, s) := by
      simp only [invokeOneToolCall, h1, if_neg h2]
    simp only [invoke_tools_after_llm_response, hone]
  · simp only [insertPerCall]
    have := foldWrites env p (env.writeQueriesGen s.cWriteGen)
      { s with cWriteGen := s.cWriteGen + 1 }
    simp only [] at this
    rw [this.2]
  · simp only [insertPerCall]
    have := foldWrites env p (env.writeQueriesGen s.cWriteGen)
      { s with cWriteGen := s.cWriteGen + 1 }
    simp only [] at this
    omega

/-- C6 (amended) at concrete inputs. -/
theorem C6_amended_witness :
    (invoke_tools_after_llm_response env6 defaultParams [⟨"missing", []⟩]
        St.init).1 = [ToolOut.noneOut] ∧
    (insertPerCall env6 defaultParams [(⟨"missing", []⟩, ToolOut.noneOut)] ""
        St.init).2.cWriteGen = St.init.cWriteGen + 1 ∧
    St.init.cWrites +
        (env6.writeQueriesGen St.init.cWriteGen).length ≤
      (insertPerCall env6 defaultParams [(⟨"missing", []⟩, ToolOut.noneOut)] ""
          St.init).2.cWrites :=
  C6_amended env6 defaultParams ⟨"missing", []⟩ "" St.init rfl
    (by intro h; exact absurd h (by decide))

/-- A run through `voteLoop` that ends without a `TypeError` consumes exactly
`n` next-step votes. -/
lemma voteLoop_consumes (env : Env) :
    ∀ (n : Nat) (t : Tally) (s : St) (t' : Tally) (s' : St),
      voteLoop env n t s = (Except.ok t', s') →
      s'.cNextStep = s.cNextStep + n := by
  intro n
  induction n with
  | zero =>
    intro t s t' s' h
    simp only [voteLoop] at h
    injection h with h1 h2
    rw [← h2]
    omega
  | succ k ih =>
    intro t s t' s' h
    simp only [voteLoop] at h
    cases ha : applyVote t (env.nextStep s.cNextStep).1
        (env.nextStep s.cNextStep).2 with
    | error e => rw [ha] at h; injection h with h1 _; exact absurd h1 (by simp)
    | ok t1 =>
      rw [ha] at h
      have := ih t1 { s with cNextStep := s.cNextStep + 1 } t' s' h
      simp only [] at this
      omega

/-- C7: one iteration of the outer loop enters the retrieve branch and stops
iterating exactly when the tallied RETRIEVE votes strictly exceed the tallied
INSERT votes; on a tie (and whenever RETRIEVE does not exceed INSERT) the
iteration runs the insert branch and continues.  The vote loop consumes
exactly `num_next_steps_decision` next-step votes. -/
theorem C7_vote_tie_break (env : Env) (p : Params) (fuel : Nat) (gs : String)
    (tcm : List ToolCall) (raws : List PyVal) (iter : Nat)
    (trace : List BranchTag) (s : St) (t : Tally) (s1 : St)
    (hv : voteLoop env p.num_next_steps_decision Tally.empty s =
      (Except.ok t, s1)) :
    s1.cNextStep = s.cNextStep + p.num_next_steps_decision ∧
    (t.retrieve > t.insert →
      iterLoop env p (fuel + 1) gs tcm raws iter trace s =
        Except.ok
          (raws ++ (perform_retrieve_branch env p t.retrieveContent s1).1,
           gs, iter, trace ++ [BranchTag.retrieveBreak],
           (perform_retrieve_branch env p t.retrieveContent s1).2)) ∧
    (¬(t.retrieve > t.insert) →
      iterLoop env p (fuel + 1) gs tcm raws iter trace s =
        iterLoop env p fuel
          (insert_logic env p tcm gs
            (if 1 < t.insert then { s1 with cMerge := s1.cMerge + 1 } else s1)).1
          (insert_logic env p tcm gs
            (if 1 < t.insert then { s1 with cMerge := s1.cMerge + 1 } else s1)).2.1
          raws (iter + 1) (trace ++ [BranchTag.insertStep])
          (insert_logic env p tcm gs
            (if 1 < t.insert then { s1 with cMerge := s1.cMerge + 1 } else s1)).2.2) ∧
    (t.retrieve = t.insert →
      iterLoop env p (fuel + 1) gs tcm raws iter trace s =
        iterLoop env p fuel
          (insert_logic env p tcm gs
            (if 1 < t.insert then { s1 with cMerge := s1.cMerge + 1 } else s1)).1
          (insert_logic env p tcm gs
            (if 1 < t.insert then { s1 with cMerge := s1.cMerge + 1 } else s1)).2.1
          raws (iter + 1) (trace ++ [BranchTag.insertStep])
          (insert_logic env p tcm gs
            (if 1 < t.insert then { s1 with cMerge := s1.cMerge + 1 } else s1)).2.2) := by
  refine ⟨voteLoop_consumes env p.num_next_steps_decision Tally.empty s t s1 hv,
    ?_, ?_, ?_⟩
  · intro hgt
    simp only [iterLoop, hv]
    rw [if_pos hgt]
  · intro hle
    simp only [iterLoop, hv]
    rw [if_neg hle]
  · intro heq
    simp only [iterLoop, hv]
    rw [if_neg (by omega)]

/-- Parameters with zero next-step votes, giving the 0-0 tie. -/
def p7 : Params := { defaultParams with num_next_steps_decision := 0 }

/-- C7 at concrete inputs: with a 0-0 tie the iteration takes the insert
branch. -/
theorem C7_vote_tie_break_witness :
    St.init.cNextStep = St.init.cNextStep + p7.num_next_steps_decision ∧
    iterLoop defaultEnv p7 1 "" [] [] 0 [] St.init =
      iterLoop defaultEnv p7 0
        (insert_logic defaultEnv p7 [] ""
          (if 1 < Tally.empty.insert then { St.init with cMerge := St.init.cMerge + 1 }
           else St.init)).1
        (insert_logic defaultEnv p7 [] ""
          (if 1 < Tally.empty.insert then { St.init with cMerge := St.init.cMerge + 1 }
           else St.init)).2.1
        [] 1 [BranchTag.insertStep]
        (insert_logic defaultEnv p7 [] ""
          (if 1 < Tally.empty.insert then { St.init with cMerge := St.init.cMerge + 1 }
           else St.init)).2.2 :=
  ⟨(C7_vote_tie_break defaultEnv p7 0 "" [] [] 0 [] St.init Tally.empty St.init
      rfl).1,
   (C7_vote_tie_break defaultEnv p7 0 "" [] [] 0 [] St.init Tally.empty St.init
      rfl).2.2.2 rfl⟩

/-- Observable outcome of a run: answer, iterations, finalization branch and
iteration trace. -/
def runOutcome
    (r : Except String (String × Nat × PathTag × List BranchTag × St)) :
    Option (String × Nat × PathTag × List BranchTag) :=
  match r with
  | Except.ok (sol, iter, tag, trace, _) => some (sol, iter, tag, trace)
  | Except.error _ => Option.none

/-- Oracle whose solution parser always returns the empty string. -/
def envEmptyParse : Env := { defaultEnv with parseSol := fun _ => "" }

/-- One iteration budget, no next-step votes. -/
def p4 : Params :=
  { defaultParams with max_iterations := 1, num_next_steps_decision := 0 }

/-- C4: the claim says the returned final answer is non-empty regardless of
the oracle's outputs; with an oracle whose solution parser returns `""` the
run terminates through the forced-solution path and returns the empty
string. -/
theorem C4_counterexample :
    runOutcome (iterative_next_step_logic envEmptyParse p4 St.init) =
      some ("", 1, PathTag.outerForced, [BranchTag.insertStep]) := rfl

/-- A vote whose type is neither of the two `_CONTENT` dictionary keys never
raises. -/
lemma applyVote_ok (t : Tally) (q ty : String)
    (h1 : ty ≠ "RETRIEVE_CONTENT") (h2 : ty ≠ "INSERT_CONTENT") :
    ∃ t', applyVote t q ty = Except.ok t' := by
  unfold applyVote
  by_cases hr : ty = "RETRIEVE"
  · simp [hr]
  · by_cases hi : ty = "INSERT"
    · simp [hr, hi]
    · simp [hr, hi, h1, h2]

/-- The vote loop never raises when no vote type is a `_CONTENT` key. -/
lemma voteLoop_ok (env : Env)
    (hvotes : ∀ i, (env.nextStep i).2 ≠ "RETRIEVE_CONTENT" ∧
      (env.nextStep i).2 ≠ "INSERT_CONTENT") :
    ∀ (n : Nat) (t : Tally) (s : St),
      ∃ t' s', voteLoop env n t s = (Except.ok t', s') := by
  intro n
  induction n with
  | zero => intro t s; exact ⟨t, s, rfl⟩
  | succ k ih =>
    intro t s
    obtain ⟨t1, ht1⟩ := applyVote_ok t (env.nextStep s.cNextStep).1
      (env.nextStep s.cNextStep).2 (hvotes s.cNextStep).1 (hvotes s.cNextStep).2
    obtain ⟨t', s', h⟩ := ih t1 { s with cNextStep := s.cNextStep + 1 }
    refine ⟨t', s', ?_⟩
    simp only [voteLoop, ht1]
    exact h

/-- The outer loop always returns when no vote type is a `_CONTENT` key. -/
lemma iterLoop_ok (env : Env) (p : Params)
    (hvotes : ∀ i, (env.nextStep i).2 ≠ "RETRIEVE_CONTENT" ∧
      (env.nextStep i).2 ≠ "INSERT_CONTENT") :
    ∀ (fuel : Nat) (gs : String) (tcm : List ToolCall) (raws : List PyVal)
      (iter : Nat) (trace : List BranchTag) (s : St),
      ∃ r, iterLoop env p fuel gs tcm raws iter trace s = Except.ok r := by
  intro fuel
  induction fuel with
  | zero => intro gs tcm raws iter trace s; exact ⟨_, rfl⟩
  | succ k ih =>
    intro gs tcm raws iter trace s
    obtain ⟨t', s', hv⟩ :=
      voteLoop_ok env hvotes p.num_next_steps_decision Tally.empty s
    by_cases hgt : t'.retrieve > t'.insert
    · refine ⟨(raws ++ (perform_retrieve_branch env p t'.retrieveContent s').1,
        gs, iter, trace ++ [BranchTag.retrieveBreak],
        (perform_retrieve_branch env p t'.retrieveContent s').2), ?_⟩
      simp only [iterLoop, hv]
      rw [if_pos hgt]
    · obtain ⟨r, hr⟩ := ih
        (insert_logic env p tcm gs
          (if 1 < t'.insert then { s' with cMerge := s'.cMerge + 1 } else s')).1
        (insert_logic env p tcm gs
          (if 1 < t'.insert then { s' with cMerge := s'.cMerge + 1 } else s')).2.1
        raws (iter + 1) (trace ++ [BranchTag.insertStep])
        (insert_logic env p tcm gs
          (if 1 < t'.insert then { s' with cMerge := s'.cMerge + 1 } else s')).2.2
      refine ⟨r, ?_⟩
      simp only [iterLoop, hv]
      rw [if_neg hgt]
      exact hr

/-- When the accumulated solutions are all empty (and the forced-retrieve
precondition does not fire), `_retrieve_logic` takes the forced-solution
branch. -/
lemma retrieve_logic_forced (env : Env) (p : Params) (iter : Nat)
    (gs : String) (sols : List PyVal) (s : St)
    (hiter : iter = p.max_iterations → sols ≠ [])
    (hemp : is_empty_solution (PyVal.list sols) = true) :
    (retrieve_logic env p iter gs sols s).2.1 = PathTag.outerForced := by
  have hcond : (decide (iter = p.max_iterations) &&
      decide (sols.length = 0)) = false := by
    by_cases h : iter = p.max_iterations
    · have hne := hiter h
      simp [h, List.length_eq_zero, hne]
    · simp [h]
  simp [retrieve_logic, hcond, hemp]

/-- C4 (amended): provided no next-step vote type is one of the `_CONTENT`
dictionary keys (which crash the tally with a `TypeError`), the controller
terminates and returns an answer for every oracle behaviour; whenever the
retrieved solutions are all empty under the emptiness predicate the
forced-solution path (forced solution followed by the solution parser) is
taken.  The answer is whatever string the parser returns and may be
empty. -/
theorem C4_amended :
    (∀ (env : Env) (p : Params) (s : St),
      (∀ i, (env.nextStep i).2 ≠ "RETRIEVE_CONTENT" ∧
        (env.nextStep i).2 ≠ "INSERT_CONTENT") →
      ∃ r, iterative_next_step_logic env p s = Except.ok r) ∧
    (∀ (env : Env) (p : Params) (iter : Nat) (gs : String)
       (sols : List PyVal) (s : St),
      (iter = p.max_iterations → sols ≠ []) →
      is_empty_solution (PyVal.list sols) = true →
      (retrieve_logic env p iter gs sols s).2.1 = PathTag.outerForced) := by
  refine ⟨?_, retrieve_logic_forced⟩
  intro env p s hvotes
  obtain ⟨⟨raws, gs, iter, trace, s'⟩, hr⟩ :=
    iterLoop_ok env p hvotes p.max_iterations "" [] [] 0 [] s
  refine ⟨((retrieve_logic env p iter gs raws s').1, iter,
    (retrieve_logic env p iter gs raws s').2.1, trace,
    (retrieve_logic env p iter gs raws s').2.2), ?_⟩
  simp only [iterative_next_step_logic, hr]

/-- C4 (amended) at concrete inputs: the all-INSERT default oracle yields a
returning run, and empty solutions at an unexhausted iteration count take the
forced path. -/
theorem C4_amended_witness :
    (iterative_next_step_logic defaultEnv smallParams St.init).isOk = true ∧
    (retrieve_logic defaultEnv smallParams 0 "" [] St.init).2.1 =
      PathTag.outerForced := by
  constructor
  · obtain ⟨r, hr⟩ := C4_amended.1 defaultEnv smallParams St.init
      (fun i => by refine ⟨?_, ?_⟩ <;> simp [defaultEnv])
    rw [hr]
    rfl
  · exact C4_amended.2 defaultEnv smallParams 0 "" [] St.init
      (fun h => absurd h (by decide)) rfl
